import Mathlib

/-!
Verification of the debug-session lifecycle orchestrator of the
k8s-pods-debug repository.  The Go sources under pkg/plugin are shallowly
embedded: pure computations (security-profile resolution, label derivation,
argument assembly, the reclamation filter) become Lean functions, and the
effectful flows (standalone creation, pod copy, ephemeral container
injection, batch cleanup) become functions from an explicit environment,
recording the cluster-facing actions they perform as a trace.
-/

namespace KPDbug

/-- Seccomp profile field of a Kubernetes security context
(corev1.SeccompProfile; the Go field Type is a Lean keyword, embedded as
TypeName). -/
structure SeccompProfile where
  TypeName : String
deriving DecidableEq

/-- Capability add and drop lists (corev1.Capabilities).  A Go nil slice is
embedded as the empty list. -/
structure Capabilities where
  Add : List String
  Drop : List String
deriving DecidableEq

/-- Container-level security context, restricted to the fields the plugin
sets (corev1.SecurityContext). -/
structure SecurityContext where
  AllowPrivilegeEscalation : Option Bool
  Privileged : Option Bool
  Capabilities : Option Capabilities
  RunAsNonRoot : Option Bool
  RunAsUser : Option Int
  SeccompProfile : Option SeccompProfile
deriving DecidableEq

/-- Pod-level security context, restricted to the fields the plugin reads
and sets (corev1.PodSecurityContext). -/
structure PodSecurityContext where
  RunAsNonRoot : Option Bool
  RunAsUser : Option Int
  SeccompProfile : Option SeccompProfile
deriving DecidableEq

/-- Embeds getSecurityContextForProfile (part_005, lines 223 to 271).
Both contexts start with only the RuntimeDefault seccomp type; the switch
on the profile name fills in the recognized profiles, and every other name
falls through to the initial contexts. -/
def getSecurityContextForProfile (profileName : String) :
    SecurityContext × PodSecurityContext :=
  let containerContext : SecurityContext :=
    { AllowPrivilegeEscalation := none, Privileged := none,
      Capabilities := none, RunAsNonRoot := none, RunAsUser := none,
      SeccompProfile := some { TypeName := "RuntimeDefault" } }
  let podContext : PodSecurityContext :=
    { RunAsNonRoot := none, RunAsUser := none,
      SeccompProfile := some { TypeName := "RuntimeDefault" } }
  if profileName = "restricted" then
    ({ containerContext with
        AllowPrivilegeEscalation := some false,
        Capabilities := some { Add := [], Drop := ["ALL"] },
        RunAsNonRoot := some true,
        RunAsUser := some 1000,
        SeccompProfile := some { TypeName := "RuntimeDefault" } },
     { podContext with
        RunAsNonRoot := some true,
        RunAsUser := some 1000,
        SeccompProfile := some { TypeName := "RuntimeDefault" } })
  else if profileName = "baseline" then
    ({ containerContext with
        AllowPrivilegeEscalation := some false,
        Capabilities := some { Add := [], Drop := ["ALL"] },
        SeccompProfile := some { TypeName := "RuntimeDefault" } },
     podContext)
  else if profileName = "privileged" then
    ({ containerContext with
        AllowPrivilegeEscalation := some true,
        Privileged := some true,
        Capabilities := some { Add := ["ALL"], Drop := [] },
        SeccompProfile := some { TypeName := "Unconfined" } },
     { podContext with
        SeccompProfile := some { TypeName := "Unconfined" } })
  else
    (containerContext, podContext)

/-- The container-level policy of the general (permissive default)
profile: only the RuntimeDefault seccomp type is set. -/
def generalContainerContext : SecurityContext :=
  { AllowPrivilegeEscalation := none, Privileged := none,
    Capabilities := none, RunAsNonRoot := none, RunAsUser := none,
    SeccompProfile := some { TypeName := "RuntimeDefault" } }

/-- The pod-level policy of the general (permissive default) profile. -/
def generalPodContext : PodSecurityContext :=
  { RunAsNonRoot := none, RunAsUser := none,
    SeccompProfile := some { TypeName := "RuntimeDefault" } }

/-- A Go map from string to string, embedded as an association list with
map semantics given by the operations below. -/
abbrev Labels := List (String × String)

/-- Go map assignment m[k] = v: overwrite in place if the key exists,
otherwise add the binding. -/
def mapInsert (m : Labels) (k v : String) : Labels :=
  if m.any (fun p => p.1 == k) then
    m.map (fun p => if p.1 == k then (k, v) else p)
  else m ++ [(k, v)]

/-- Go delete(m, k). -/
def mapDelete (m : Labels) (k : String) : Labels :=
  m.filter (fun p => p.1 != k)

/-- Go map lookup m[k], none when the key is absent. -/
def mapGet (m : Labels) (k : String) : Option String :=
  (m.find? (fun p => p.1 == k)).map (fun p => p.2)

/-- DebugConfig (operations.go, lines 21 to 35): the configuration of one
debug operation, with the Go field names. -/
structure DebugConfig where
  Namespace : String
  PodName : String
  Image : String
  Interactive : Bool
  TTY : Bool
  RemoveAfter : Bool
  Force : Bool
  CopyPod : Bool
  Profile : String
  CPURequest : String
  MemoryLimit : String
  MemoryRequest : String
deriving DecidableEq

/-- The three operation modes (operations.go, lines 14 to 18). -/
inductive DebugOperation where
  | Standalone
  | CopyPod
  | AddContainer
deriving DecidableEq

/-- Mode selection of NewDebugConfigFromFlags (operations.go, lines 54 to
61): no target means standalone, a target with the copy flag means pod
copy, a target without it means ephemeral container. -/
def determineOperation (config : DebugConfig) : DebugOperation :=
  if config.PodName = "" then .Standalone
  else if config.CopyPod then .CopyPod
  else .AddContainer

/-- generateUniqueName (part_005, lines 94 to 105); the timestamp and the
four-digit random string are taken from the environment. -/
def generateUniqueName (config : DebugConfig)
    (timestamp randomStr : String) : String :=
  if config.PodName = "" then
    "debug-" ++ timestamp ++ "-" ++ randomStr
  else
    "debug-" ++ config.PodName ++ "-" ++ timestamp ++ "-" ++ randomStr

/-- Checks that the second list is a prefix of the first, as booleans over
characters. -/
def charsStartWith : List Char → List Char → Bool
  | _, [] => true
  | [], _ :: _ => false
  | a :: as, b :: bs => a == b && charsStartWith as bs

/-- Checks that the pattern occurs somewhere in the character list. -/
def charsContain (s pat : List Char) : Bool :=
  match s with
  | [] => charsStartWith [] pat
  | _ :: rest => charsStartWith s pat || charsContain rest pat

/-- Go strings.Contains. -/
def containsSubstr (s pat : String) : Bool :=
  charsContain s.toList pat.toList

/-- Whitespace as trimmed by Go strings.TrimSpace, restricted to the
ASCII space characters that occur in kubectl output. -/
def isSpaceChar (c : Char) : Bool :=
  c == ' ' || c == '\n' || c == '\t' || c == '\r'

/-- Drops leading whitespace characters. -/
def dropLeadingSpace : List Char → List Char
  | [] => []
  | c :: cs => if isSpaceChar c then dropLeadingSpace cs else c :: cs

/-- Go strings.TrimSpace. -/
def trimSpace (s : String) : String :=
  String.mk ((dropLeadingSpace ((dropLeadingSpace s.toList).reverse)).reverse)

/-- Splits a character list at newlines, accumulating the current line in
reverse. -/
def splitLinesAux : List Char → List Char → List String
  | [], acc => [String.mk acc.reverse]
  | c :: cs, acc =>
    if c == '\n' then String.mk acc.reverse :: splitLinesAux cs []
    else splitLinesAux cs (c :: acc)

/-- Go strings.Split at newline. -/
def splitLines (s : String) : List String :=
  splitLinesAux s.toList []

/-- Outcome of one executed kubectl command: its exit code and what it
wrote to standard error. -/
structure CmdResult where
  exitCode : Nat
  stderrText : String
deriving DecidableEq

/-- Outcome of a kubectl command whose standard output is consumed as raw
text: either a failure carrying standard error, or the produced text. -/
inductive RawResult where
  | failed (stderrText : String)
  | ok (stdout : String)
deriving DecidableEq

/-- The label selector built by findExistingDebugPod (part_005, lines 43
to 46): always the discovery label, plus the target label when a target is
set. -/
def findExistingSelector (config : DebugConfig) : String :=
  if config.PodName ≠ "" then
    "debug-tool/type=debug-pod,debug-tool/target=" ++ config.PodName
  else "debug-tool/type=debug-pod"

/-- The first line of the output whose trimmed form is nonempty, trimmed;
the empty string when there is none (part_005, lines 64 to 71). -/
def firstNonEmptyLine (output : String) : String :=
  match (splitLines output).find? (fun line => trimSpace line != "") with
  | some line => trimSpace line
  | none => ""

/-- findExistingDebugPod (part_005, lines 42 to 72) applied to the outcome
of its kubectl query: a failure whose standard error mentions No resources
found is an empty success; any other failure is an error; on success the
first nonempty output line is the existing pod name. -/
def findExistingDebugPod (r : RawResult) : Except String String :=
  match r with
  | .failed stderrText =>
    if containsSubstr stderrText "No resources found" then .ok ""
    else .error ("error checking for existing pods: " ++ stderrText)
  | .ok output => .ok (firstNonEmptyLine output)

/-- The read-only lookups against the target pod that createDebugPod
performs through kubectl, given as their results: the target pod security
context (getTargetPodSecurityContext), the target pod labels
(getTargetPodLabels) and the owning deployment selector
(getDeploymentSelectors, none when the pod has no owning deployment). -/
structure TargetLookup where
  secCtx : Except String (Option PodSecurityContext)
  targetLabels : Except String Labels
  deploymentSelectors : Except String (Option Labels)

/-- The label computation of createDebugPod (part_005, lines 277 to 331):
start from the discovery label; when a target is set, replace the set by
the target pod labels when they could be read, add the target label,
delete every key of the owning deployment selector, and finally re-add the
discovery label. -/
def createDebugPodLabels (config : DebugConfig) (target : TargetLookup) :
    Labels :=
  let labels : Labels := [("debug-tool/type", "debug-pod")]
  let labels :=
    if config.PodName ≠ "" then
      let labels :=
        match target.targetLabels with
        | .ok tl => tl
        | .error _ => labels
      let labels := mapInsert labels "debug-tool/target" config.PodName
      match target.deploymentSelectors with
      | .ok (some sels) => sels.foldl (fun acc kv => mapDelete acc kv.1) labels
      | _ => labels
    else labels
  mapInsert labels "debug-tool/type" "debug-pod"

/-- The pod-level security context of createDebugPod (part_005, lines 290
to 328): the target pod context when a target is set and that context was
read and declares a run-as-user, the resolved profile context otherwise. -/
def resolvePodSecurityContext (config : DebugConfig) (target : TargetLookup) :
    PodSecurityContext :=
  let fromTarget : Option PodSecurityContext :=
    if config.PodName ≠ "" then
      match target.secCtx with
      | .ok (some sc) => if sc.RunAsUser.isSome then some sc else none
      | _ => none
    else none
  match fromTarget with
  | some sc => sc
  | none => (getSecurityContextForProfile config.Profile).2

/-- The container security context of createDebugPod (part_005, lines 346
to 352): the profile container context, with run-as-user and
run-as-non-root overridden from the pod context when the latter declares a
run-as-user. -/
def resolveContainerSecurityContext (config : DebugConfig)
    (podCtx : PodSecurityContext) : SecurityContext :=
  let c := (getSecurityContextForProfile config.Profile).1
  if podCtx.RunAsUser.isSome then
    { c with RunAsUser := podCtx.RunAsUser, RunAsNonRoot := podCtx.RunAsNonRoot }
  else c

/-- The single debug container of the built pod (part_005, lines 362 to
398), restricted to the fields the plugin sets. -/
structure DebugContainer where
  Name : String
  Image : String
  Command : List String
  Stdin : Bool
  TTY : Bool
  SecurityContext : SecurityContext
  MemoryLimit : String
  CPURequest : String
  MemoryRequest : String
deriving DecidableEq

/-- The debug pod object assembled by createDebugPod (part_005, lines 277
to 398). -/
structure DebugPod where
  Name : String
  Namespace : String
  Labels : Labels
  AutomountServiceAccountToken : Option Bool
  TerminationGracePeriodSeconds : Option Int
  ShareProcessNamespace : Option Bool
  SecurityContext : PodSecurityContext
  Containers : List DebugContainer
deriving DecidableEq

/-- The pure pod construction of createDebugPod (part_005, lines 277 to
398), given the generated name and the target lookups. -/
def buildDebugPod (config : DebugConfig) (target : TargetLookup)
    (debugPodName : String) : DebugPod :=
  let podCtx := resolvePodSecurityContext config target
  { Name := debugPodName,
    Namespace := config.Namespace,
    Labels := createDebugPodLabels config target,
    AutomountServiceAccountToken := some false,
    TerminationGracePeriodSeconds := some 0,
    ShareProcessNamespace := if config.PodName ≠ "" then some true else none,
    SecurityContext := podCtx,
    Containers := [
      { Name := "debugger",
        Image := config.Image,
        Command := if config.Interactive && config.TTY then ["bash"]
                   else ["sleep", "infinity"],
        Stdin := true,
        TTY := true,
        SecurityContext := resolveContainerSecurityContext config podCtx,
        MemoryLimit := config.MemoryLimit,
        CPURequest := config.CPURequest,
        MemoryRequest := config.MemoryRequest }] }

/-- The cluster-facing steps performed by the orchestration flows, recorded
as a trace. -/
inductive Action where
  | createPod (name : String)
  | armSignalHandler (name : String)
  | attach (name : String)
  | attachExec (name : String)
  | execHint (name : String)
  | promptUser (existingPod : String)
  | createCopy (args : List String)
  | addEphemeral (args : List String)
  | deletePodAct (name : String)
deriving DecidableEq

/-- True exactly on the prompt action. -/
def Action.isPromptUser : Action → Bool
  | .promptUser _ => true
  | _ => false

/-- True exactly on the delete action. -/
def Action.isDeleteAct : Action → Bool
  | .deletePodAct _ => true
  | _ => false

/-- Outcome of the blocking kubectl attach of executeStandalone: a clean
run, an exit-code failure (the process exits with that code, skipping any
deferred cleanup), or another failure. -/
inductive AttachOutcome where
  | succeeded
  | exitErr (code : Int)
  | failed
deriving DecidableEq

/-- The environment a single orchestration run observes: results of the
kubectl commands it issues and the name-generation inputs.  The polls
field gives the readiness-poll output of each attempt. -/
structure ExecEnv where
  targetExists : Bool
  findResult : RawResult
  promptResponse : Except String String
  secCtx : Except String (Option PodSecurityContext)
  containerName : Except String String
  applyResult : CmdResult
  runResult : CmdResult
  attachOutcome : AttachOutcome
  attachResult : CmdResult
  deleteResult : CmdResult
  polls : Nat → Option String
  timestamp : String
  randomStr : String

/-- Fixed readiness attempt bound (part_005, line 30). -/
def maxAttempts : Nat := 30

/-- waitForPod (part_005, lines 153 to 164): up to maxAttempts polls of
the pod phase; the wait succeeds exactly when some attempt reports the
Running phase. -/
def waitForPod (polls : Nat → Option String) : Bool :=
  (List.range maxAttempts).any (fun i => polls i == some "Running")

/-- Result of executeStandalone: a clean return, an error return, or a
process exit with the attach exit code (which skips deferred cleanup). -/
inductive StandaloneOutcome where
  | ok
  | failure (msg : String)
  | exited (code : Int)
deriving DecidableEq

/-- executeStandalone (operations.go, lines 81 to 144): create the debug
pod, arm the signal handler when auto-removal is set, wait for readiness
only when attaching interactively (a timeout returns before the deferred
deletion is registered), then attach or print the exec hint, running the
deferred deletion on normal returns when auto-removal is set. -/
def executeStandalone (config : DebugConfig) (env : ExecEnv) :
    StandaloneOutcome × List Action :=
  let debugPodName := generateUniqueName config env.timestamp env.randomStr
  let acts := [Action.createPod debugPodName]
  if env.applyResult.exitCode ≠ 0 then (.failure "create debug pod", acts)
  else
    let acts := if config.RemoveAfter then
        acts ++ [Action.armSignalHandler debugPodName] else acts
    if config.Interactive && config.TTY && !(waitForPod env.polls) then
      (.failure "timeout waiting for pod ready", acts)
    else
      let deferDel : List Action :=
        if config.RemoveAfter then [Action.deletePodAct debugPodName] else []
      if config.Interactive && config.TTY then
        match env.attachOutcome with
        | .exitErr code => (.exited code, acts ++ [Action.attach debugPodName])
        | .failed => (.failure "attach to pod",
            acts ++ [Action.attach debugPodName] ++ deferDel)
        | .succeeded => (.ok, acts ++ [Action.attach debugPodName] ++ deferDel)
      else
        (.ok, acts ++ [Action.execHint debugPodName] ++ deferDel)

/-- askForNewPod (part_005, lines 74 to 92): with the force flag the
answer is always to create a new pod and nothing is printed; otherwise the
user is prompted and only the trimmed response 2 chooses a new pod (a read
failure and every other response, including the empty default, choose the
existing pod). -/
def askForNewPod (config : DebugConfig) (existingPod : String)
    (promptResponse : Except String String) : Bool × List Action :=
  if config.Force then (true, [])
  else
    let decision :=
      match promptResponse with
      | .error _ => false
      | .ok response => trimSpace response == "2"
    (decision, [Action.promptUser existingPod])

/-- useExistingPod (operations.go, lines 227 to 244): attach to the
existing pod with an interactive exec when both interactivity flags are
set (deleting it afterwards when auto-removal is set), otherwise only
print the exec hint. -/
def useExistingPod (config : DebugConfig) (env : ExecEnv)
    (existingPod : String) : Except String Unit × List Action :=
  if config.Interactive && config.TTY then
    if env.attachResult.exitCode ≠ 0 then
      (.error "attach to existing pod", [Action.attachExec existingPod])
    else if config.RemoveAfter then
      ((if env.deleteResult.exitCode = 0 then .ok () else .error "delete pod"),
       [Action.attachExec existingPod, Action.deletePodAct existingPod])
    else (.ok (), [Action.attachExec existingPod])
  else (.ok (), [Action.execHint existingPod])

/-- The kubectl argument list assembled by createPodCopy (operations.go,
lines 294 to 320): the copy-to invocation with the custom resources file;
the profile flag only when the target declares a run-as-user or a profile
was set; then the interactivity flags. -/
def createPodCopyArgs (config : DebugConfig) (debugPodName : String)
    (secCtx : Option PodSecurityContext) (tmpfileName : String) :
    List String :=
  let args := ["debug", config.PodName, "-n", config.Namespace,
    "--image", config.Image, "--share-processes",
    "--copy-to=" ++ debugPodName, "--custom=" ++ tmpfileName]
  let args :=
    if (match secCtx with
        | some sc => sc.RunAsUser.isSome
        | none => false) || config.Profile ≠ "" then
      args ++ ["--profile=" ++
        (if config.Profile = "" then "general" else config.Profile)]
    else args
  let args := if config.Interactive then args ++ ["-i"] else args
  let args := if config.TTY then args ++ ["-t"] else args
  if config.Interactive && config.TTY then args ++ ["--"] else args

/-- The custom debug configuration written by createPodCopy (operations.go,
lines 255 to 265): a single resources object carrying the memory limit and
the cpu and memory requests, and nothing else (in particular no labels). -/
structure CustomDebugResources where
  limitsMemory : String
  requestsCPU : String
  requestsMemory : String
deriving DecidableEq

/-- The contents of the temporary custom file of createPodCopy. -/
def customDebugConfig (config : DebugConfig) : CustomDebugResources :=
  { limitsMemory := config.MemoryLimit,
    requestsCPU := config.CPURequest,
    requestsMemory := config.MemoryRequest }

/-- The creation part of createPodCopy (operations.go, lines 246 to 344):
generate the name, arm the signal handler when auto-removal is set, run
the kubectl debug copy (a security-context read failure degrades to no
context), and on an interactive run with auto-removal delete the copy
after the session. -/
def createPodCopyRun (config : DebugConfig) (env : ExecEnv) :
    Except String Unit × List Action :=
  let debugPodName := generateUniqueName config env.timestamp env.randomStr
  let acts : List Action :=
    if config.RemoveAfter then [Action.armSignalHandler debugPodName] else []
  let secCtxEff : Option PodSecurityContext :=
    match env.secCtx with
    | .error _ => none
    | .ok v => v
  let args := createPodCopyArgs config debugPodName secCtxEff "tmpfile"
  let acts := acts ++ [Action.createCopy args]
  if env.runResult.exitCode ≠ 0 then (.error "create debug pod copy", acts)
  else if config.RemoveAfter && config.Interactive && config.TTY then
    ((if env.deleteResult.exitCode = 0 then .ok ()
      else .error "delete debug pod"),
     acts ++ [Action.deletePodAct debugPodName])
  else (.ok (), acts)

/-- executeCopyPod (operations.go, lines 147 to 169): verify the target,
then unless forced check for an existing debug session for it, prompting
when one is found; the use-existing choice attaches to the found session,
every other path creates the copy. -/
def executeCopyPod (config : DebugConfig) (env : ExecEnv) :
    Except String Unit × List Action :=
  if !env.targetExists then (.error "pod not found", [])
  else if !config.Force then
    match findExistingDebugPod env.findResult with
    | .error _ => (.error "check existing debug pods", [])
    | .ok existingPod =>
      if existingPod ≠ "" then
        let ask := askForNewPod config existingPod env.promptResponse
        if !ask.1 then
          let r := useExistingPod config env existingPod
          (r.1, ask.2 ++ r.2)
        else
          let r := createPodCopyRun config env
          (r.1, ask.2 ++ r.2)
      else createPodCopyRun config env
  else createPodCopyRun config env

/-- The kubectl argument list assembled by executeAddContainer
(operations.go, lines 184 to 206): the ephemeral-container invocation
targeting the first container, with the profile defaulting to general and
then the interactivity flags. -/
def executeAddContainerArgs (config : DebugConfig)
    (containerName : String) : List String :=
  let args := ["debug", config.PodName, "-n", config.Namespace,
    "--image", config.Image, "--target=" ++ containerName]
  let args :=
    if config.Profile ≠ "" then args ++ ["--profile=" ++ config.Profile]
    else args ++ ["--profile=general"]
  let args := if config.Interactive then args ++ ["-i"] else args
  let args := if config.TTY then args ++ ["-t"] else args
  if config.Interactive && config.TTY then args ++ ["--"] else args

/-- executeAddContainer (operations.go, lines 172 to 215): verify the
target, read its first container name, and run the kubectl debug
injection; no collision check and no prompt occur on this path. -/
def executeAddContainer (config : DebugConfig) (env : ExecEnv) :
    Except String Unit × List Action :=
  if !env.targetExists then (.error "pod not found", [])
  else
    match env.containerName with
    | .error _ => (.error "get target container name", [])
    | .ok cname =>
      ((if env.runResult.exitCode = 0 then .ok ()
        else .error "run ephemeral debug"),
       [Action.addEphemeral (executeAddContainerArgs config cname)])

/-- DebugPodInfo (list.go, lines 15 to 24), with the Go field names; the
creation timestamp is embedded as seconds. -/
structure DebugPodInfo where
  Name : String
  Namespace : String
  TargetPod : String
  Status : String
  Age : String
  CreationTimestamp : Int
  Image : String
  Node : String
deriving DecidableEq

/-- calculateAge (list.go, lines 122 to 134) over a duration in seconds. -/
def calculateAge (seconds : Int) : String :=
  if seconds < 60 then toString seconds ++ "s"
  else if seconds < 3600 then toString (seconds / 60) ++ "m"
  else if seconds < 86400 then toString (seconds / 3600) ++ "h"
  else toString (seconds / 86400) ++ "d"

/-- One pod of the parsed kubectl list output, restricted to the fields
getDebugPods reads. -/
structure PodItem where
  Name : String
  Namespace : String
  Phase : String
  CreationTimestamp : Int
  NodeName : String
  PodLabels : Labels
  ContainerImages : List String
deriving DecidableEq

/-- Outcome of the kubectl list command consumed by getDebugPods: a
failure carrying standard error, or output that either parses to a pod
list or does not parse. -/
inductive KubectlListResult where
  | failed (stderrText : String)
  | output (parsed : Option (List PodItem))

/-- The projection of one listed pod performed by getDebugPods (list.go,
lines 96 to 117). -/
def toDebugPodInfo (now : Int) (pod : PodItem) : DebugPodInfo :=
  { Name := pod.Name,
    Namespace := pod.Namespace,
    TargetPod := (mapGet pod.PodLabels "debug-tool/target").getD "",
    Status := pod.Phase,
    Age := calculateAge (now - pod.CreationTimestamp),
    CreationTimestamp := pod.CreationTimestamp,
    Image := match pod.ContainerImages with
             | [] => ""
             | i :: _ => i,
    Node := pod.NodeName }

/-- getDebugPods (list.go, lines 68 to 120) applied to the outcome of its
kubectl query: a failure mentioning No resources found is an empty
success, any other failure and unparseable output are errors, and parsed
items are projected to records. -/
def getDebugPods (now : Int) (resp : KubectlListResult) :
    Except String (List DebugPodInfo) :=
  match resp with
  | .failed stderrText =>
    if containsSubstr stderrText "No resources found" then .ok []
    else .error ("error listing pods: " ++ stderrText)
  | .output none => .error "error parsing pod list"
  | .output (some items) => .ok (items.map (toDebugPodInfo now))

/-- filterPodsForCleanup (part_004, lines 88 to 108): the empty threshold
keeps every record; an unparseable threshold is a validation error; a
parsed threshold keeps exactly the records created strictly before the
cutoff now minus threshold.  The Go time.ParseDuration call is a standard
library boundary, passed in as a function to seconds. -/
def filterPodsForCleanup (parseDuration : String → Option Int) (now : Int)
    (cleanOlderThan : String) (pods : List DebugPodInfo) :
    Except String (List DebugPodInfo) :=
  if cleanOlderThan = "" then .ok pods
  else
    match parseDuration cleanOlderThan with
    | none => .error "invalid duration format for --older-than"
    | some d =>
      .ok (pods.filter (fun p => decide (p.CreationTimestamp < now - d)))

/-- deletePod (part_005, lines 116 to 121): the kubectl delete outcome is
passed through unchanged; any nonzero exit, including a not-found
deletion, is an error. -/
def deletePod (r : CmdResult) : Except String Unit :=
  if r.exitCode = 0 then .ok ()
  else .error ("delete failed: " ++ r.stderrText)

/-- deletePodByName (part_004, lines 118 to 121): identical pass-through
of the kubectl delete outcome. -/
def deletePodByName (r : CmdResult) : Except String Unit :=
  if r.exitCode = 0 then .ok ()
  else .error ("delete failed: " ++ r.stderrText)

/-- The deletion loop of runClean (part_004, lines 72 to 84): every
selected pod is attempted in order regardless of earlier failures, and the
reported count is the number of deletions that succeeded. -/
def runCleanFoldStep (deleteResult : DebugPodInfo → CmdResult)
    (acc : Nat × List Action) (p : DebugPodInfo) : Nat × List Action :=
  ((if (deleteResult p).exitCode = 0 then acc.1 + 1 else acc.1),
   acc.2 ++ [Action.deletePodAct p.Name])

def runCleanDeleteLoop (pods : List DebugPodInfo)
    (deleteResult : DebugPodInfo → CmdResult) : Nat × List Action :=
  pods.foldl (runCleanFoldStep deleteResult) (0, [])

/-- A concrete copy-mode configuration: target pod web, both
interactivity flags, no force, no auto-removal, empty profile. -/
def copyModeConfig : DebugConfig :=
  { Namespace := "default", PodName := "web", Image := "debug:latest",
    Interactive := true, TTY := true, RemoveAfter := false, Force := false,
    CopyPod := true, Profile := "", CPURequest := "100m",
    MemoryLimit := "256Mi", MemoryRequest := "128Mi" }

/-- The same configuration in ephemeral-container mode (no copy flag). -/
def ephemeralConfig : DebugConfig :=
  { copyModeConfig with CopyPod := false }

/-- The same configuration with no target: standalone mode. -/
def standaloneConfig : DebugConfig :=
  { copyModeConfig with PodName := "", CopyPod := false }

/-- A concrete environment where every kubectl call succeeds, no prior
debug session exists and the pod is immediately Running. -/
def baseEnv : ExecEnv :=
  { targetExists := true, findResult := .ok "", promptResponse := .ok "",
    secCtx := .ok none, containerName := .ok "app",
    applyResult := { exitCode := 0, stderrText := "" },
    runResult := { exitCode := 0, stderrText := "" },
    attachOutcome := .succeeded,
    attachResult := { exitCode := 0, stderrText := "" },
    deleteResult := { exitCode := 0, stderrText := "" },
    polls := fun _ => some "Running",
    timestamp := "120000", randomStr := "0042" }

/-- An environment in which the locator query reports two prior debug
sessions for the target, and the prompt response picks option 1 (use the
existing pod). -/
def twoPriorSessionsEnv : ExecEnv :=
  { baseEnv with
    findResult := .ok "debug-web-100000-0001\ndebug-web-100001-0002\n",
    promptResponse := .ok "1" }

/-- Target lookups that are never consulted (standalone mode). -/
def unusedTargetLookup : TargetLookup :=
  { secCtx := .error "unused", targetLabels := .error "unused",
    deploymentSelectors := .error "unused" }

/-- The label-derivation example of the specification: target labels app
and pod-template-hash, owning deployment selector app. -/
def exampleTargetLookup : TargetLookup :=
  { secCtx := .ok none,
    targetLabels := .ok [("app", "x"), ("pod-template-hash", "abc")],
    deploymentSelectors := .ok (some [("app", "x")]) }

/-- Copy-mode configuration against the target pod api of the
label-derivation example. -/
def apiCopyConfig : DebugConfig :=
  { copyModeConfig with PodName := "api" }

/-- The exact kubectl argument list the copy mode issues for
copyModeConfig: resources come from the custom file; no argument carries
any label. -/
def copyModeArgs : List String :=
  ["debug", "web", "-n", "default", "--image", "debug:latest",
   "--share-processes", "--copy-to=debug-web-120000-0042",
   "--custom=tmpfile", "-i", "-t", "--"]

/-- The exact kubectl argument list the copy mode issues for
apiCopyConfig. -/
def apiCopyArgs : List String :=
  ["debug", "api", "-n", "default", "--image", "debug:latest",
   "--share-processes", "--copy-to=debug-api-120000-0042",
   "--custom=tmpfile", "-i", "-t", "--"]

/-- The exact kubectl argument list the ephemeral mode issues for
ephemeralConfig. -/
def ephemeralArgs : List String :=
  ["debug", "web", "-n", "default", "--image", "debug:latest",
   "--target=app", "--profile=general", "-i", "-t", "--"]

/-- A kubectl delete outcome of the not-found shape: nonzero exit with the
NotFound server message. -/
def notFoundDelete : CmdResult :=
  { exitCode := 1,
    stderrText := "Error from server (NotFound): pods not found" }

/-- A sample discovery record. -/
def samplePodA : DebugPodInfo :=
  { Name := "debug-100000-0001", Namespace := "default", TargetPod := "",
    Status := "Running", Age := "5m", CreationTimestamp := 1000,
    Image := "debug:latest", Node := "n1" }

/-- A second sample discovery record, created later. -/
def samplePodB : DebugPodInfo :=
  { samplePodA with Name := "debug-100000-0002", CreationTimestamp := 9000 }

/-- Per-record delete outcomes: the first sample pod deletes cleanly, any
other record hits the not-found failure. -/
def sampleDeleteOutcome : DebugPodInfo → CmdResult := fun p =>
  if p.Name = "debug-100000-0001" then { exitCode := 0, stderrText := "" }
  else notFoundDelete

/-- Standalone configuration with both interactivity flags and
auto-removal, for the readiness-timeout scenario. -/
def timeoutConfig : DebugConfig :=
  { standaloneConfig with RemoveAfter := true }

/-- Environment whose readiness polls never report Running. -/
def neverReadyEnv : ExecEnv :=
  { baseEnv with polls := fun _ => some "Pending" }

end KPDbug

namespace KPDbug

/-- C5: every profile name outside the four recognized values resolves to
exactly the general policy: both contexts carry only the RuntimeDefault
seccomp type, with no capability changes, no run-as-user and no
privilege-escalation setting, and the result coincides with resolving the
name general itself. -/
theorem unrecognized_profile_resolves_to_general (p : String)
    (h1 : p ≠ "restricted") (h2 : p ≠ "baseline")
    (h3 : p ≠ "general") (h4 : p ≠ "privileged") :
    getSecurityContextForProfile p = (generalContainerContext, generalPodContext) ∧
    getSecurityContextForProfile p = getSecurityContextForProfile "general" := by
  have hgen : getSecurityContextForProfile "general" =
      (generalContainerContext, generalPodContext) := by decide
  have hp : getSecurityContextForProfile p =
      (generalContainerContext, generalPodContext) := by
    simp only [getSecurityContextForProfile]
    rw [if_neg h1, if_neg h2, if_neg h4]
    rfl
  exact ⟨hp, hp.trans hgen.symm⟩

/-- Witness for the fail-open theorem at the concrete unrecognized profile
name typo. -/
theorem unrecognized_profile_resolves_to_general_instance :
    getSecurityContextForProfile "typo" =
      (generalContainerContext, generalPodContext) ∧
    getSecurityContextForProfile "typo" = getSecurityContextForProfile "general" :=
  unrecognized_profile_resolves_to_general "typo"
    (by decide) (by decide) (by decide) (by decide)

/-- C6: the restricted profile disables privilege escalation, drops all
capabilities, enforces run-as-non-root and fixes the non-zero user 1000;
the privileged profile enables escalation, adds all capabilities and uses
the Unconfined seccomp type. -/
theorem restricted_and_privileged_profile_policies :
    (getSecurityContextForProfile "restricted").1.AllowPrivilegeEscalation = some false ∧
    (getSecurityContextForProfile "restricted").1.Capabilities =
      some { Add := [], Drop := ["ALL"] } ∧
    (getSecurityContextForProfile "restricted").1.RunAsNonRoot = some true ∧
    (getSecurityContextForProfile "restricted").1.RunAsUser = some 1000 ∧
    (1000 : Int) ≠ 0 ∧
    (getSecurityContextForProfile "privileged").1.AllowPrivilegeEscalation = some true ∧
    (getSecurityContextForProfile "privileged").1.Capabilities =
      some { Add := ["ALL"], Drop := [] } ∧
    (getSecurityContextForProfile "privileged").1.SeccompProfile =
      some { TypeName := "Unconfined" } := by
  refine ⟨by decide, by decide, by decide, by decide, by decide,
    by decide, by decide, by decide⟩

/-- C1 counterexample: ephemeral-container mode with force unset and two
matching prior sessions for the target: the locator would report the first
prior session, yet the flow injects the ephemeral container immediately
with no prompt action of any kind, so no prompt precedes creation. -/
theorem ephemeral_mode_skips_collision_check :
    ephemeralConfig.Force = false ∧
    findExistingDebugPod twoPriorSessionsEnv.findResult =
      .ok "debug-web-100000-0001" ∧
    (executeAddContainer ephemeralConfig twoPriorSessionsEnv).1 = .ok () ∧
    (executeAddContainer ephemeralConfig twoPriorSessionsEnv).2 =
      [Action.addEphemeral ephemeralArgs] ∧
    ((executeAddContainer ephemeralConfig twoPriorSessionsEnv).2.all
      fun a => !(a.isPromptUser)) = true :=
  ⟨rfl, rfl, rfl, rfl, rfl⟩

/-- C1 amended: the collision check runs in copy mode only.  In copy mode
with force unset and a located prior session, a prompt is presented and
the use-existing choice attaches to the first-found prior session with no
copy being created, while the ephemeral-container flow never emits a
prompt. -/
theorem copy_mode_prompts_and_reuses_first_found
    (config : DebugConfig) (env : ExecEnv) (existing resp : String)
    (hforce : config.Force = false)
    (htarget : env.targetExists = true)
    (hfind : findExistingDebugPod env.findResult = .ok existing)
    (hne : existing ≠ "")
    (hresp : env.promptResponse = .ok resp)
    (hchoice : trimSpace resp ≠ "2")
    (hint : config.Interactive = true) (htty : config.TTY = true)
    (hrm : config.RemoveAfter = false)
    (hattach : env.attachResult.exitCode = 0) :
    (executeCopyPod config env).2 =
      [Action.promptUser existing, Action.attachExec existing] ∧
    (executeCopyPod config env).1 = .ok () ∧
    ((executeAddContainer config env).2.all
      fun a => !(a.isPromptUser)) = true := by
  have hask : askForNewPod config existing env.promptResponse =
      (false, [Action.promptUser existing]) := by
    simp [askForNewPod, hforce, hresp, hchoice]
  have huse : useExistingPod config env existing =
      (.ok (), [Action.attachExec existing]) := by
    simp [useExistingPod, hint, htty, hattach, hrm]
  have heph : ((executeAddContainer config env).2.all
      fun a => !(a.isPromptUser)) = true := by
    unfold executeAddContainer
    cases henv : env.containerName <;>
      simp [htarget, henv, Action.isPromptUser]
  refine ⟨?_, ?_, heph⟩ <;>
    simp [executeCopyPod, htarget, hforce, hfind, hne, hask, huse]

/-- Witness for the copy-mode prompt-and-reuse theorem on the concrete
two-prior-sessions environment with response 1. -/
theorem copy_mode_prompts_and_reuses_first_found_instance :
    (executeCopyPod copyModeConfig twoPriorSessionsEnv).2 =
      [Action.promptUser "debug-web-100000-0001",
       Action.attachExec "debug-web-100000-0001"] ∧
    (executeCopyPod copyModeConfig twoPriorSessionsEnv).1 = .ok () ∧
    ((executeAddContainer copyModeConfig twoPriorSessionsEnv).2.all
      fun a => !(a.isPromptUser)) = true :=
  copy_mode_prompts_and_reuses_first_found copyModeConfig twoPriorSessionsEnv
    "debug-web-100000-0001" "1" rfl rfl rfl (by decide) rfl (by decide)
    rfl rfl rfl rfl

/-- C2 evaluation at the failing input: copy mode against target web.  The
locator and collision check select sessions by the discovery and target
labels, the standalone builder does stamp the discovery label, but the
copy-mode creation consists of a single kubectl debug copy invocation none
of whose arguments mentions any debug-tool label, so the created copy does
not carry the discovery label the claim requires. -/
theorem pod_copy_creation_lacks_discovery_labels :
    findExistingSelector copyModeConfig =
      "debug-tool/type=debug-pod,debug-tool/target=web" ∧
    (executeCopyPod copyModeConfig baseEnv).2 =
      [Action.createCopy copyModeArgs] ∧
    (copyModeArgs.all fun a => !(containsSubstr a "debug-tool")) = true ∧
    customDebugConfig copyModeConfig =
      { limitsMemory := "256Mi", requestsCPU := "100m",
        requestsMemory := "128Mi" } ∧
    mapGet (buildDebugPod standaloneConfig unusedTargetLookup
      "debug-120000-0042").Labels "debug-tool/type" = some "debug-pod" :=
  ⟨rfl, rfl, rfl, rfl, rfl⟩

/-- C4 evaluation at the failing input: the claimed label derivation is
implemented, with exactly the claimed outcome on the example (selector key
app stripped, pod-template-hash retained, both discovery labels present),
but only inside the standalone builder createDebugPod; the copy-mode flow
issues a plain kubectl debug copy whose arguments never mention the
inherited or stripped labels, so the derivation is not applied to the pod
copy. -/
theorem pod_copy_label_derivation_not_applied :
    mapGet (createDebugPodLabels apiCopyConfig exampleTargetLookup)
      "app" = none ∧
    mapGet (createDebugPodLabels apiCopyConfig exampleTargetLookup)
      "pod-template-hash" = some "abc" ∧
    mapGet (createDebugPodLabels apiCopyConfig exampleTargetLookup)
      "debug-tool/type" = some "debug-pod" ∧
    mapGet (createDebugPodLabels apiCopyConfig exampleTargetLookup)
      "debug-tool/target" = some "api" ∧
    (executeCopyPod apiCopyConfig baseEnv).2 =
      [Action.createCopy apiCopyArgs] ∧
    (apiCopyArgs.all fun a =>
      !(containsSubstr a "pod-template-hash") &&
      !(containsSubstr a "debug-tool")) = true :=
  ⟨rfl, rfl, rfl, rfl, rfl, rfl⟩

/-- C3 counterexample: a kubectl delete outcome of the not-found shape is
returned as a failure by both delete helpers, not as success. -/
theorem delete_not_found_is_failure :
    containsSubstr notFoundDelete.stderrText "NotFound" = true ∧
    deletePod notFoundDelete ≠ .ok () ∧
    deletePodByName notFoundDelete ≠ .ok () := by
  refine ⟨by decide, ?_, ?_⟩ <;>
    simp [deletePod, deletePodByName, notFoundDelete]

/-- Auxiliary count lemma for the cleanup deletion loop. -/
theorem cleanLoopCountAux (f : DebugPodInfo → CmdResult)
    (pods : List DebugPodInfo) :
    ∀ (n : Nat) (acts : List Action),
      (pods.foldl (runCleanFoldStep f) (n, acts)).1 =
        n + (pods.filter (fun p => decide ((f p).exitCode = 0))).length := by
  induction pods with
  | nil => intro n acts; simp
  | cons p ps ih =>
    intro n acts
    by_cases h : (f p).exitCode = 0 <;>
      simp [runCleanFoldStep, h, ih, List.filter] <;> omega

/-- Auxiliary length lemma for the cleanup deletion loop. -/
theorem cleanLoopLenAux (f : DebugPodInfo → CmdResult)
    (pods : List DebugPodInfo) :
    ∀ (acc : Nat × List Action),
      (pods.foldl (runCleanFoldStep f) acc).2.length =
        acc.2.length + pods.length := by
  induction pods with
  | nil => intro acc; simp
  | cons p ps ih =>
    intro acc
    simp [runCleanFoldStep, ih]
    omega

/-- C3 amended: every session-delete passes the kubectl outcome through
unchanged, so a delete succeeds exactly when kubectl exits zero and a
not-found outcome is a failure; the reclamation loop nevertheless attempts
every selected record regardless of earlier failures and reports the
number of deletions that exited zero. -/
theorem delete_outcome_passthrough_and_batch_continues
    (pods : List DebugPodInfo) (deleteResult : DebugPodInfo → CmdResult) :
    (runCleanDeleteLoop pods deleteResult).1 =
      (pods.filter (fun p => decide ((deleteResult p).exitCode = 0))).length ∧
    (runCleanDeleteLoop pods deleteResult).2.length = pods.length ∧
    (∀ r : CmdResult, (deletePod r = .ok ()) ↔ r.exitCode = 0) ∧
    (∀ r : CmdResult, (deletePodByName r = .ok ()) ↔ r.exitCode = 0) := by
  refine ⟨?_, ?_, ?_, ?_⟩
  · simpa using cleanLoopCountAux deleteResult pods 0 []
  · simpa using cleanLoopLenAux deleteResult pods (0, [])
  · intro r; by_cases h : r.exitCode = 0 <;> simp [deletePod, h]
  · intro r; by_cases h : r.exitCode = 0 <;> simp [deletePodByName, h]

/-- Witness for the delete pass-through theorem on two concrete records,
one deleting cleanly and one hitting not-found. -/
theorem delete_outcome_passthrough_instance :
    (runCleanDeleteLoop [samplePodA, samplePodB] sampleDeleteOutcome).1 =
      ([samplePodA, samplePodB].filter
        (fun p => decide ((sampleDeleteOutcome p).exitCode = 0))).length ∧
    (runCleanDeleteLoop [samplePodA, samplePodB] sampleDeleteOutcome).2.length =
      [samplePodA, samplePodB].length ∧
    deletePod { exitCode := 0, stderrText := "" } = .ok () :=
  ⟨(delete_outcome_passthrough_and_batch_continues
      [samplePodA, samplePodB] sampleDeleteOutcome).1,
   (delete_outcome_passthrough_and_batch_continues
      [samplePodA, samplePodB] sampleDeleteOutcome).2.1,
   ((delete_outcome_passthrough_and_batch_continues
      [samplePodA, samplePodB] sampleDeleteOutcome).2.2.1
      { exitCode := 0, stderrText := "" }).mpr rfl⟩

/-- C7: the reclamation filter is the identity on an empty threshold, a
validation error on an unparseable threshold, and otherwise selects
exactly the records created strictly before now minus the threshold. -/
theorem cleanup_filter_characterization
    (parseDuration : String → Option Int) (now : Int)
    (pods : List DebugPodInfo) :
    (filterPodsForCleanup parseDuration now "" pods = .ok pods) ∧
    (∀ s, s ≠ "" → parseDuration s = none →
      filterPodsForCleanup parseDuration now s pods =
        .error "invalid duration format for --older-than") ∧
    (∀ s d, s ≠ "" → parseDuration s = some d →
      ∃ out, filterPodsForCleanup parseDuration now s pods = .ok out ∧
        ∀ p, p ∈ out ↔ (p ∈ pods ∧ p.CreationTimestamp < now - d)) := by
  refine ⟨by simp [filterPodsForCleanup], ?_, ?_⟩
  · intro s hs hp
    simp [filterPodsForCleanup, hs, hp]
  · intro s d hs hp
    refine ⟨pods.filter (fun p => decide (p.CreationTimestamp < now - d)),
      by simp [filterPodsForCleanup, hs, hp], ?_⟩
    intro p
    simp [List.mem_filter]

/-- Witness for the reclamation-filter theorem: identity on the empty
threshold, error on an unparseable threshold, exact strict-cutoff
selection on a parsed one-hour threshold against a concrete record. -/
theorem cleanup_filter_characterization_instance :
    (filterPodsForCleanup (fun _ => some 3600) 10000 "" [samplePodA] =
      .ok [samplePodA]) ∧
    (filterPodsForCleanup (fun _ => none) 10000 "1x" [samplePodA] =
      .error "invalid duration format for --older-than") ∧
    (∃ out, filterPodsForCleanup (fun _ => some 3600) 10000 "1h" [samplePodA] =
      .ok out ∧
      ∀ p, p ∈ out ↔ (p ∈ [samplePodA] ∧ p.CreationTimestamp < 10000 - 3600)) :=
  ⟨(cleanup_filter_characterization (fun _ => some 3600) 10000 [samplePodA]).1,
   (cleanup_filter_characterization (fun _ => none) 10000 [samplePodA]).2.1
     "1x" (by decide) rfl,
   (cleanup_filter_characterization (fun _ => some 3600) 10000 [samplePodA]).2.2
     "1h" 3600 (by decide) rfl⟩

/-- C8: a backing-store response of the no-resources-found shape, as well
as an empty parsed list, yields a successful empty result from the
locator, for both the list query and the existing-session query. -/
theorem locator_no_resources_is_empty_success (now : Int) (s : String)
    (h : containsSubstr s "No resources found" = true) :
    getDebugPods now (.failed s) = .ok [] ∧
    getDebugPods now (.output (some [])) = .ok [] ∧
    findExistingDebugPod (.failed s) = .ok "" := by
  refine ⟨by simp [getDebugPods, h], by simp [getDebugPods], ?_⟩
  simp [findExistingDebugPod, h]

/-- Witness for the empty-locator theorem at the literal kubectl
no-resources message. -/
theorem locator_no_resources_is_empty_success_instance :
    getDebugPods 0 (.failed "No resources found in default namespace.") =
      .ok [] ∧
    getDebugPods 0 (.output (some [])) = .ok [] ∧
    findExistingDebugPod (.failed "No resources found in default namespace.") =
      .ok "" :=
  locator_no_resources_is_empty_success 0
    "No resources found in default namespace." (by decide)

/-- C9: when the bounded readiness wait of an interactive standalone run
never observes the Running phase, the flow returns the timeout failure and
its trace contains no deletion, whatever the auto-removal flag: the
deferred cleanup is registered only after the wait, so the created session
is left in the cluster. -/
theorem readiness_timeout_preserves_pod (config : DebugConfig)
    (env : ExecEnv)
    (hint : config.Interactive = true) (htty : config.TTY = true)
    (hcreate : env.applyResult.exitCode = 0)
    (hwait : waitForPod env.polls = false) :
    (executeStandalone config env).1 =
      .failure "timeout waiting for pod ready" ∧
    ((executeStandalone config env).2.all fun a => !(a.isDeleteAct)) = true := by
  unfold executeStandalone
  cases hrm : config.RemoveAfter <;>
    simp [hint, htty, hwait, hcreate, hrm, Action.isDeleteAct]

/-- Witness for the readiness-timeout theorem: auto-removal requested,
every poll reports Pending. -/
theorem readiness_timeout_preserves_pod_instance :
    (executeStandalone timeoutConfig neverReadyEnv).1 =
      .failure "timeout waiting for pod ready" ∧
    ((executeStandalone timeoutConfig neverReadyEnv).2.all
      fun a => !(a.isDeleteAct)) = true :=
  readiness_timeout_preserves_pod timeoutConfig neverReadyEnv
    rfl rfl rfl (by decide)

/-- C10: every debug pod spec the standalone builder produces disables
service-account token automounting and has a zero-second termination grace
period, for every configuration, target lookup and generated name. -/
theorem standalone_pod_automount_and_grace_invariant (config : DebugConfig)
    (target : TargetLookup) (name : String) :
    (buildDebugPod config target name).AutomountServiceAccountToken =
      some false ∧
    (buildDebugPod config target name).TerminationGracePeriodSeconds =
      some 0 :=
  ⟨rfl, rfl⟩

end KPDbug
